import Mathlib

/-!
Verification of the phastly Fastly API client, a shallow embedding of
src/index.js.

Modelling conventions.
JS objects with string keys and string values (header maps, form-parameter
bags) are association lists with first-match lookup, `StrMap`.  A JS object
literal has unique keys, so first-match and last-match agree on the lists the
source builds.  Template strings become `++`.  `undefined`-or-string values
are `Option String`.  `delete obj[k]` is erasure of the key `k`.  The mutable
module global `fastlyApiKey` is passed explicitly as an `Option String`
(`none` models `undefined`, i.e. the env var being unset).
-/

/-- JS object with string values, as an association list; lookup takes the
first matching key. -/
abbrev StrMap := List (String × String)

/-- ramda.merge defaults h (src line 41): a fresh object holding the keys of
the first argument (the second argument's value winning on key collision)
followed by the keys of the second argument that are absent from the first.
This mirrors how R.merge enumerates the result's own properties and leaves
both of its arguments untouched. -/
def rmerge (d h : StrMap) : StrMap :=
  d.map (fun p => (p.1, (h.lookup p.1).getD p.2)) ++
    h.filter (fun p => (d.lookup p.1).isNone)

/-- Lookup of a key-preserving map: the value found is the transform of the
first original entry for the key. -/
theorem lookup_map_keys (g : String × String → String) (d : StrMap) (k : String) :
    (d.map (fun p => (p.1, g p))).lookup k = (d.lookup k).map (fun v => g (k, v)) := by
  induction d with
  | nil => rfl
  | cons p t ih =>
      obtain ⟨a, b⟩ := p
      by_cases hk : k = a
      · subst hk
        simp [List.lookup_cons]
      · simp [List.lookup_cons, beq_false_of_ne hk, ih]

/-- Lookup distributes over append, trying the left list first. -/
theorem lookup_append (l₁ l₂ : StrMap) (k : String) :
    (l₁ ++ l₂).lookup k = (l₁.lookup k).orElse (fun _ => l₂.lookup k) := by
  induction l₁ with
  | nil => rfl
  | cons p t ih =>
      obtain ⟨a, b⟩ := p
      by_cases hk : k = a
      · subst hk
        simp [List.lookup_cons, Option.orElse]
      · simp [List.lookup_cons, beq_false_of_ne hk, ih, Option.orElse]

/-- Filtering with a predicate that keeps every entry carrying key `k` does
not change the lookup of `k`. -/
theorem lookup_filter_of_keeps (q : String × String → Bool) (h : StrMap) (k : String)
    (hq : ∀ v, q (k, v) = true) : (h.filter q).lookup k = h.lookup k := by
  induction h with
  | nil => rfl
  | cons p t ih =>
      obtain ⟨a, b⟩ := p
      by_cases hk : k = a
      · subst hk
        simp [List.filter_cons, hq b, List.lookup_cons]
      · cases hqp : q (a, b) with
        | true => simp [List.filter_cons, hqp, List.lookup_cons, beq_false_of_ne hk, ih]
        | false => simp [List.filter_cons, hqp, List.lookup_cons, beq_false_of_ne hk, ih]

/-- Characterisation of lookup after a ramda merge: the second argument wins,
falling back to the first. -/
theorem lookup_rmerge (d h : StrMap) (k : String) :
    (rmerge d h).lookup k = (h.lookup k).orElse (fun _ => d.lookup k) := by
  unfold rmerge
  rw [lookup_append, lookup_map_keys (fun p => (h.lookup p.1).getD p.2)]
  cases hd : d.lookup k with
  | some v =>
      cases hh : h.lookup k <;> simp [Option.orElse, hh]
  | none =>
      rw [lookup_filter_of_keeps _ h k (fun v => by simp [hd])]
      cases hh : h.lookup k <;> simp [Option.orElse]

/-- A successful lookup comes from a member of the list. -/
theorem mem_of_lookup {h : StrMap} {k v : String} (e : h.lookup k = some v) :
    (k, v) ∈ h := by
  induction h with
  | nil => simp at e
  | cons p t ih =>
      obtain ⟨a, b⟩ := p
      by_cases hk : k = a
      · subst hk
        rw [List.lookup_cons_self] at e
        simp at e
        subst e
        exact List.mem_cons_self _ _
      · simp only [List.lookup_cons, beq_false_of_ne hk] at e
        exact List.mem_cons_of_mem _ (ih e)

/-- Removal of a key from a JS object: the effect of `delete obj[k]`
(src line 56). -/
def eraseKey (m : StrMap) (k : String) : StrMap :=
  m.filter (fun p => p.1 != k)

/-- Erasing a key makes its lookup fail. -/
theorem lookup_eraseKey (m : StrMap) (k : String) :
    (eraseKey m k).lookup k = none := by
  induction m with
  | nil => rfl
  | cons p t ih =>
      obtain ⟨a, b⟩ := p
      by_cases hk : k = a
      · subst hk
        simp [eraseKey, List.filter_cons] at ih ⊢
        exact ih
      · have : (a != k) = true := by simp [bne, beq_false_of_ne (Ne.symm hk)]
        simp [eraseKey, List.filter_cons, this, List.lookup_cons,
          beq_false_of_ne hk] at ih ⊢
        exact ih

/-- Erasing one key keeps only entries of the original map. -/
theorem mem_eraseKey {m : StrMap} {k : String} {p : String × String}
    (hp : p ∈ eraseKey m k) : p ∈ m ∧ p.1 ≠ k := by
  have := List.mem_filter.mp hp
  refine ⟨this.1, ?_⟩
  simpa [bne] using this.2

/-- Request Descriptor: the destructured options argument of sendP
(src line 22), with the source's defaults.  `params` and `baseUrl` have no
default in the source, so `undefined` is representable. -/
structure Descriptor where
  params : Option StrMap := none
  baseUrl : Option String := none
  endpoint : String := ""
  headers : StrMap := []
  method : String := "GET"
  timeout : Nat := 5000
deriving DecidableEq

/-- The options object handed to the HTTP client (src lines 43-49). -/
structure RequestOptions where
  form : Option StrMap
  headers : StrMap
  method : String
  timeout : Nat
  url : String
deriving DecidableEq

/-- Result of the synchronous part of sendP: either a configuration error
thrown before any network call, or the single issued HTTP request. -/
inductive Dispatch where
  | configError (msg : String)
  | issued (options : RequestOptions)
deriving DecidableEq

/-- The three error kinds a sendP promise can reject with once the key and
url checks pass are joined with the configuration error in one sum. -/
inductive SendError (ε : Type) where
  | configError (msg : String)
  | appError (msg : String)
  | parseError (e : ε)
deriving DecidableEq

/-- Message of the missing-credential configuration error (src line 25). -/
def keyMissingMsg : String :=
  "Fastly API Key missing, try setting env var FASTLY_API_KEY"

/-- Message of the dead missing-url configuration error (src line 33). -/
def urlMissingMsg : String :=
  "missing baseUrl and/or endpoint!"

/-- JS truthiness test `!fastlyApiKey` (src line 24): `undefined` and the
empty string are the falsy cases for an optional string. -/
def keyFalsy : Option String → Bool
  | none => true
  | some s => s == ""

/-- JS `baseUrl || dflt` (src line 28) for an optional string. -/
def orDefault (b : Option String) (dflt : String) : String :=
  match b with
  | none => dflt
  | some s => if s = "" then dflt else s

/-- The resolved target url `${baseUrl}/${endpoint}` (src lines 28-30). -/
def urlOf (d : Descriptor) : String :=
  orDefault d.baseUrl "https://api.fastly.com" ++ "/" ++ d.endpoint

/-- The default header object (src lines 36-39). -/
def defaultHeaders (fastlyApiKey : String) : StrMap :=
  [("Fastly-Key", fastlyApiKey), ("Accept", "application/json")]

/-- The options record built by sendP from a descriptor under a given key
(src lines 41-49): merged headers, resolved url, fields otherwise copied. -/
def issuedOf (fastlyApiKey : String) (d : Descriptor) : RequestOptions :=
  { form := d.params
    headers := rmerge (defaultHeaders fastlyApiKey) d.headers
    method := d.method
    timeout := d.timeout
    url := urlOf d }

/-- Synchronous part of sendP (src lines 22-51): credential check, url
resolution and (dead) root-url check, header merge, request construction. -/
def sendP (fastlyApiKey : Option String) (d : Descriptor) : Dispatch :=
  if keyFalsy fastlyApiKey then
    .configError keyMissingMsg
  else if urlOf d = "/" then
    .configError urlMissingMsg
  else
    .issued (issuedOf (fastlyApiKey.getD "") d)

/-- JSON string escaping as JSON.stringify performs it on the characters this
library's values can contain (backslash and double quote; control characters
are outside the modelled alphabet). -/
def jsEscape (s : String) : String :=
  String.mk (s.data.foldl
    (fun acc c =>
      acc ++ (if c = Char.ofNat 92 then [Char.ofNat 92, Char.ofNat 92]
              else if c = Char.ofNat 34 then [Char.ofNat 92, Char.ofNat 34]
              else [c])) [])

/-- A JSON string literal. -/
def jsQuote (s : String) : String :=
  "\"" ++ jsEscape s ++ "\""

/-- Comma separated concatenation, as JSON.stringify separates properties. -/
def joinComma : List String → String
  | [] => ""
  | [s] => s
  | s :: rest => s ++ "," ++ joinComma rest

/-- JSON.stringify of a string-valued object. -/
def stringifyMap (m : StrMap) : String :=
  "\x7b" ++ joinComma (m.map (fun p => jsQuote p.1 ++ ":" ++ jsQuote p.2)) ++ "\x7d"

/-- JSON.stringify of the options object (src line 57), with the property
order of the literal on src lines 43-49; a `form` holding `undefined` is
omitted, as JSON.stringify drops undefined-valued properties. -/
def stringifyOptions (o : RequestOptions) : String :=
  "\x7b" ++
    (match o.form with
     | none => ""
     | some m => jsQuote "form" ++ ":" ++ stringifyMap m ++ ",") ++
    jsQuote "headers" ++ ":" ++ stringifyMap o.headers ++ "," ++
    jsQuote "method" ++ ":" ++ jsQuote o.method ++ "," ++
    jsQuote "timeout" ++ ":" ++ toString o.timeout ++ "," ++
    jsQuote "url" ++ ":" ++ jsQuote o.url ++ "\x7d"

/-- The optionsLog object after `delete optionsLog.headers['Fastly-Key']`
(src lines 55-56).  Since optionsLog aliases options, this is also the state
of the issued options object after the empty-response handler ran. -/
def sanitizedOf (o : RequestOptions) : RequestOptions :=
  { o with headers := eraseKey o.headers "Fastly-Key" }

/-- The then-callback of sendP (src lines 52-61) applied to the response body
text.  The first component is the state of the options object after the
callback (optionsLog aliases it); the second the settled outcome.  JSON.parse
is the abstract parameter jsonParse; an exception it throws is propagated
unchanged as the rejection payload, wrapped only by the parseError
constructor of the model's error sum. -/
def handleResponse {ε α : Type} (jsonParse : String → Except ε α)
    (options : RequestOptions) (response : String) :
    RequestOptions × Except (SendError ε) α :=
  if response = "" then
    let optionsLog := sanitizedOf options
    (optionsLog,
      .error (.appError
        ("request failed with sanitized options: " ++ stringifyOptions optionsLog)))
  else
    (options, (jsonParse response).mapError SendError.parseError)

/-- One complete execution of sendP against a transport that answered with
the given body text. -/
structure ExecResult (ε α : Type) where
  requestIssued : Bool
  issuedOptions : Option RequestOptions
  finalOptions : Option RequestOptions
  finalCallerHeaders : StrMap
  finalCallerParams : Option StrMap
  outcome : Except (SendError ε) α

/-- sendP run to completion (src lines 22-62).  Object identities, read off
the source: the caller owns `d.headers` and `d.params`; ramda.merge (line 41)
returns a fresh object, so the merged map is distinct from the caller's;
`options` (line 43) is fresh, its `headers` field referencing the merged map
and its `form` field the caller's params; `optionsLog = options` (line 55) is
an alias, so the delete on line 56 rewrites the merged map held inside
`options`, and no statement writes either of the caller's two objects.
`finalCallerHeaders` and `finalCallerParams` record the post-run state of the
caller's objects, `finalOptions` that of the options object. -/
def sendFull {ε α : Type} (jsonParse : String → Except ε α)
    (fastlyApiKey : Option String) (d : Descriptor) (response : String) :
    ExecResult ε α :=
  match sendP fastlyApiKey d with
  | .configError msg =>
      { requestIssued := false, issuedOptions := none, finalOptions := none,
        finalCallerHeaders := d.headers, finalCallerParams := d.params,
        outcome := .error (.configError msg) }
  | .issued opts =>
      let po := handleResponse jsonParse opts response
      { requestIssued := true, issuedOptions := some opts,
        finalOptions := some po.1,
        finalCallerHeaders := d.headers, finalCallerParams := d.params,
        outcome := po.2 }

/-- A string of length zero is empty. -/
theorem eq_empty_of_length_zero {s : String} (h : s.length = 0) : s = "" := by
  obtain ⟨data⟩ := s
  cases data with
  | nil => rfl
  | cons c cs => simp [String.length] at h

/-- The defaulted base url is never empty. -/
theorem orDefault_ne_empty (b : Option String) :
    orDefault b "https://api.fastly.com" ≠ "" := by
  cases b with
  | none =>
      simp only [orDefault]
      decide
  | some s =>
      by_cases hs : s = ""
      · simp only [orDefault, if_pos hs]
        decide
      · simp only [orDefault, if_neg hs]
        exact hs

/-- The root-url guard on src line 32 is dead: the base url is defaulted
before the check, so the resolved url never equals "/". -/
theorem urlOf_ne_root (d : Descriptor) : urlOf d ≠ "/" := by
  intro h
  have hb := orDefault_ne_empty d.baseUrl
  have hl := congrArg String.length h
  rw [urlOf] at h
  have hlen : (orDefault d.baseUrl "https://api.fastly.com" ++ "/" ++ d.endpoint).length
      = ("/" : String).length := congrArg String.length h
  rw [String.length_append, String.length_append] at hlen
  have h1 : ("/" : String).length = 1 := by decide
  rw [h1] at hlen
  have hz : (orDefault d.baseUrl "https://api.fastly.com").length = 0 := by omega
  exact hb (eq_empty_of_length_zero hz)

/-- When the credential is a non-empty string, sendP issues exactly one
request, the one described by issuedOf. -/
theorem sendP_issued (key : String) (hk : key ≠ "") (d : Descriptor) :
    sendP (some key) d = .issued (issuedOf key d) := by
  have hkf : keyFalsy (some key) = false := by
    simp [keyFalsy, hk]
  unfold sendP
  rw [hkf]
  simp [urlOf_ne_root d]

/-- setApiKey (src lines 425-427): the credential state after the setter ran
with the given argument. -/
def setApiKey (key : String) : Option String :=
  some key

/-- Hex digit of a nibble, upper case as encodeURIComponent produces. -/
def hexDigit (n : Nat) : Char :=
  if n < 10 then Char.ofNat (48 + n) else Char.ofNat (55 + n)

/-- UTF-8 byte sequence of a character. -/
def utf8Bytes (c : Char) : List Nat :=
  let n := c.toNat
  if n < 128 then [n]
  else if n < 2048 then [192 + n / 64, 128 + n % 64]
  else if n < 65536 then [224 + n / 4096, 128 + n / 64 % 64, 128 + n % 64]
  else [240 + n / 262144, 128 + n / 4096 % 64, 128 + n / 64 % 64, 128 + n % 64]

/-- The characters encodeURIComponent leaves unescaped. -/
def uriUnreserved (c : Char) : Bool :=
  c.isAlphanum || c ∈ ['-', '_', '.', '!', '~', '*', Char.ofNat 39, '(', ')']

/-- Percent escape of one byte. -/
def pctByte (b : Nat) : String :=
  "%" ++ String.mk [hexDigit (b / 16), hexDigit (b % 16)]

/-- JS encodeURIComponent, used on src line 334. -/
def encodeURIComponent (s : String) : String :=
  String.join (s.data.map (fun c =>
    if uriUnreserved c then String.mk [c]
    else String.join ((utf8Bytes c).map pctByte)))

/-- purgeP (src lines 71-78). -/
def purgeP (serviceId key : String) (soft : Bool := false) : Descriptor :=
  { method := "POST"
    endpoint := "/service/" ++ serviceId ++ "/purge/" ++ key
    headers := if soft then [("Fastly-Soft-Purge", "1")] else [] }

/-- purgeUrlP (src lines 86-92): the url to purge is passed as the baseUrl. -/
def purgeUrlP (url : String) (soft : Bool := false) : Descriptor :=
  { method := "PURGE"
    baseUrl := some url
    headers := if soft then [("Fastly-Soft-Purge", "1")] else [] }

/-- purgeAllP (src lines 99-105). -/
def purgeAllP (serviceId : String) : Descriptor :=
  { method := "POST", endpoint := "/service/" ++ serviceId ++ "/purge_all" }

/-- createBackendP (src lines 114-120). -/
def createBackendP (serviceId : String) (version : Nat) (data : StrMap) : Descriptor :=
  { method := "POST"
    endpoint := "/service/" ++ serviceId ++ "/version/" ++ toString version ++ "/backend"
    params := some data }

/-- deleteBackendP (src lines 129-135). -/
def deleteBackendP (serviceId : String) (version : Nat) (name : String) : Descriptor :=
  { method := "DELETE"
    endpoint := "/service/" ++ serviceId ++ "/version/" ++ toString version
      ++ "/backend/" ++ name }

/-- createServiceP (src lines 142-149). -/
def createServiceP (name : String) : Descriptor :=
  { method := "POST", endpoint := "/service", params := some [("name", name)] }

/-- updateServiceP (src lines 156-162). -/
def updateServiceP (serviceId : String) (params : StrMap) : Descriptor :=
  { method := "PUT", endpoint := "/service/" ++ serviceId, params := some params }

/-- createServiceVersionP (src lines 169-175). -/
def createServiceVersionP (serviceId : String) : Descriptor :=
  { method := "POST", endpoint := "/service/" ++ serviceId ++ "/version" }

/-- updateServiceVersionP (src lines 184-191). -/
def updateServiceVersionP (serviceId : String) (version : Nat) (data : StrMap) : Descriptor :=
  { method := "PUT"
    endpoint := "/service/" ++ serviceId ++ "/version/" ++ toString version
    params := some data }

/-- validateServiceVersionP (src lines 199-204). -/
def validateServiceVersionP (serviceId : String) (version : Nat) : Descriptor :=
  { endpoint := "/service/" ++ serviceId ++ "/version/" ++ toString version ++ "/validate" }

/-- activateServiceVersionP (src lines 212-218). -/
def activateServiceVersionP (serviceId : String) (version : Nat) : Descriptor :=
  { method := "PUT"
    endpoint := "/service/" ++ serviceId ++ "/version/" ++ toString version ++ "/activate" }

/-- deactivateServiceVersionP (src lines 226-232). -/
def deactivateServiceVersionP (serviceId : String) (version : Nat) : Descriptor :=
  { method := "PUT"
    endpoint := "/service/" ++ serviceId ++ "/version/" ++ toString version ++ "/deactivate" }

/-- cloneServiceVersion (src lines 240-246). -/
def cloneServiceVersion (serviceId : String) (version : Nat) : Descriptor :=
  { method := "PUT"
    endpoint := "/service/" ++ serviceId ++ "/version/" ++ toString version ++ "/clone" }

/-- lockServiceVersion (src lines 254-260). -/
def lockServiceVersion (serviceId : String) (version : Nat) : Descriptor :=
  { method := "PUT"
    endpoint := "/service/" ++ serviceId ++ "/version/" ++ toString version ++ "/lock" }

/-- deleteServiceP (src lines 267-273). -/
def deleteServiceP (serviceId : String) : Descriptor :=
  { method := "DELETE", endpoint := "/service/" ++ serviceId }

/-- renameServiceP (src lines 281-288). -/
def renameServiceP (serviceId : String) (newName : String) : Descriptor :=
  { method := "PUT"
    endpoint := "/service/" ++ serviceId
    params := some [("name", newName)] }

/-- ListServicesP (src lines 308-313). -/
def ListServicesP : Descriptor :=
  { endpoint := "/service" }

/-- getServiceP (src lines 320-325). -/
def getServiceP (serviceId : String) : Descriptor :=
  { endpoint := "/service/" ++ serviceId }

/-- getServiceByNameP (src lines 332-337). -/
def getServiceByNameP (name : String) : Descriptor :=
  { endpoint := "/service/search?name=" ++ encodeURIComponent name }

/-- getServiceDetailsP (src lines 344-349). -/
def getServiceDetailsP (serviceId : String) : Descriptor :=
  { endpoint := "/service/" ++ serviceId ++ "/details" }

/-- getServiceDomainsP (src lines 356-361). -/
def getServiceDomainsP (id : String) : Descriptor :=
  { endpoint := "/service/" ++ id ++ "/domain" }

/-- createDomainP (src lines 370-376). -/
def createDomainP (serviceId : String) (version : Nat) (data : StrMap) : Descriptor :=
  { method := "POST"
    endpoint := "/service/" ++ serviceId ++ "/version/" ++ toString version ++ "/domain"
    params := some data }

/-- checkAllDomainsP (src lines 384-389). -/
def checkAllDomainsP (serviceId : String) (version : Nat) : Descriptor :=
  { endpoint := "/service/" ++ serviceId ++ "/version/" ++ toString version
      ++ "/domain/check_all" }

/-- createRequestSettingP (src lines 398-404). -/
def createRequestSettingP (serviceId : String) (version : Nat) (settings : StrMap) : Descriptor :=
  { method := "POST"
    endpoint := "/service/" ++ serviceId ++ "/version/" ++ toString version
      ++ "/request_settings"
    params := some settings }

/-- updateSettingsP (src lines 413-419). -/
def updateSettingsP (serviceId : String) (version : Nat) (settings : StrMap) : Descriptor :=
  { method := "PUT"
    endpoint := "/service/" ++ serviceId ++ "/version/" ++ toString version ++ "/settings"
    params := some settings }

/-- A Fastly version record, with the fields the library inspects or the
claims mention. -/
structure Version where
  active : Bool
  id : String
deriving DecidableEq

/-- filterActiveVersion (src lines 295-302): ramda.filter with the strict
`active === true` test, then index 0, which is undefined on an empty result.
It issues no request: it is a plain function on the version list. -/
def filterActiveVersion (versions : List Version) : Option Version :=
  (versions.filter (fun version => version.active == true))[0]?

/-- Bool test that the first character list is an initial segment of the
second. -/
def isPrefOf : List Char → List Char → Bool
  | [], _ => true
  | _ :: _, [] => false
  | a :: as, b :: bs => a == b && isPrefOf as bs

/-- Bool test that the first character list occurs contiguously inside the
second. -/
def hasSubList (n : List Char) : List Char → Bool
  | [] => isPrefOf n []
  | b :: bs => isPrefOf n (b :: bs) || hasSubList n bs

/-- Substring test on strings, for stating what an error message contains. -/
def strContains (hay needle : String) : Bool :=
  hasSubList needle.data hay.data

/-- The application-error message of an outcome, when there is one. -/
def appErrMsg {ε α : Type} : Except (SendError ε) α → Option String
  | .error (.appError m) => some m
  | _ => none

/-- C6: filterActiveVersion returns the first element whose active field is
true (first-match semantics, i.e. List.find? on the active flag), returns the
id "v2" record on the spec's three-element example, and returns an absent
result on the empty list and on every all-inactive list; it is a pure
function of the version list and performs no request. -/
theorem C6_filterActiveVersion_first_active :
    (∀ versions : List Version,
        filterActiveVersion versions = versions.find? (fun v => v.active)) ∧
    filterActiveVersion
        [⟨false, "v1"⟩, ⟨true, "v2"⟩, ⟨true, "v3"⟩] = some ⟨true, "v2"⟩ ∧
    filterActiveVersion ([] : List Version) = none ∧
    (∀ versions : List Version, (∀ v ∈ versions, v.active = false) →
        filterActiveVersion versions = none) := by
  have hfind : ∀ versions : List Version,
      filterActiveVersion versions = versions.find? (fun v => v.active) := by
    intro vs
    induction vs with
    | nil => rfl
    | cons v t ih =>
        cases hv : v.active with
        | true =>
            simp [filterActiveVersion, List.filter_cons, hv, List.find?]
        | false =>
            simp only [filterActiveVersion, List.filter_cons, hv] at ih ⊢
            simp only [Bool.false_eq_true, if_false, List.find?]
            simpa [hv] using ih
  refine ⟨hfind, rfl, rfl, ?_⟩
  intro vs hall
  rw [hfind, List.find?_eq_none]
  intro v hv
  simp [hall v hv]

/-- Witness for C6 at a concrete all-inactive list. -/
theorem C6_filterActiveVersion_witness :
    filterActiveVersion [⟨false, "w6"⟩] = none :=
  C6_filterActiveVersion_first_active.2.2.2 [⟨false, "w6"⟩] (by decide)

/-- C8: renameServiceP S n builds exactly the request descriptor of
updateServiceP S applied to the singleton name parameter bag (method PUT,
endpoint /service/S, the same headers), so the two helpers dispatch the very
same request under every credential state. -/
theorem C8_rename_is_update :
    (∀ S n : String, renameServiceP S n = updateServiceP S [("name", n)]) ∧
    (∀ (S n : String) (key : Option String),
        sendP key (renameServiceP S n) = sendP key (updateServiceP S [("name", n)])) ∧
    (∀ S n : String, (renameServiceP S n).method = "PUT"
        ∧ (renameServiceP S n).endpoint = "/service/" ++ S
        ∧ (renameServiceP S n).params = some [("name", n)]
        ∧ (renameServiceP S n).headers = (updateServiceP S [("name", n)]).headers) :=
  ⟨fun _ _ => rfl, fun _ _ _ => rfl, fun _ _ => ⟨rfl, rfl, rfl, rfl⟩⟩

/-- C2, evaluated at the claim's failing input: with base url and endpoint
both empty (or base url absent), sendP does not fail with a configuration
error; the base url is defaulted before the root-url check, so the guard of
src line 32 can never fire and the request is issued to the bare production
root.  The last conjunct shows the guard is dead on every input: every call
either fails with the missing-key error or issues its request. -/
theorem C2_root_guard_dead :
    sendP (some "k") { baseUrl := some "", endpoint := "" }
      = .issued { form := none
                  headers := [("Fastly-Key", "k"), ("Accept", "application/json")]
                  method := "GET", timeout := 5000
                  url := "https://api.fastly.com/" } ∧
    sendP (some "k") { baseUrl := none, endpoint := "" }
      = .issued { form := none
                  headers := [("Fastly-Key", "k"), ("Accept", "application/json")]
                  method := "GET", timeout := 5000
                  url := "https://api.fastly.com/" } ∧
    (∀ (key : Option String) (d : Descriptor),
        sendP key d = .configError keyMissingMsg
          ∨ sendP key d = .issued (issuedOf (key.getD "") d)) := by
  refine ⟨by decide, by decide, ?_⟩
  intro key d
  unfold sendP
  by_cases hkf : keyFalsy key = true
  · rw [if_pos hkf]
    exact Or.inl rfl
  · rw [if_neg hkf, if_neg (urlOf_ne_root d)]
    exact Or.inr rfl

/-- C3: under a present credential the header set sent by sendP contains
every caller-supplied key with the caller's value (caller wins on collision),
and the default Accept and Fastly-Key entries for every default key the
caller did not override. -/
theorem C3_header_merge (key : String) (hk : key ≠ "") (d : Descriptor) :
    sendP (some key) d = .issued (issuedOf key d) ∧
    (∀ k v : String, d.headers.lookup k = some v →
        (issuedOf key d).headers.lookup k = some v) ∧
    (d.headers.lookup "Accept" = none →
        (issuedOf key d).headers.lookup "Accept" = some "application/json") ∧
    (d.headers.lookup "Fastly-Key" = none →
        (issuedOf key d).headers.lookup "Fastly-Key" = some key) := by
  refine ⟨sendP_issued key hk d, ?_, ?_, ?_⟩
  · intro k v hv
    simp [issuedOf, lookup_rmerge, hv, Option.orElse]
  · intro h
    simp [issuedOf, lookup_rmerge, h, Option.orElse, defaultHeaders,
      List.lookup_cons]
  · intro h
    simp [issuedOf, lookup_rmerge, h, Option.orElse, defaultHeaders,
      List.lookup_cons]

/-- Witness for C3: a caller overriding Accept keeps the caller's value. -/
theorem C3_header_merge_witness :
    (issuedOf "k3"
        { headers := [("Accept", "text/plain"), ("X-Custom", "1")],
          endpoint := "s" }).headers.lookup "Accept" = some "text/plain" :=
  (C3_header_merge "k3" (by decide)
    { headers := [("Accept", "text/plain"), ("X-Custom", "1")],
      endpoint := "s" }).2.1 "Accept" "text/plain" rfl

/-- C4: with the credential absent every call to sendP, and hence every
endpoint helper (each helper dispatches its descriptor through sendP), fails
with the missing-credential configuration error and issues no request, for
every transport behaviour; and it keeps failing that way until the setter
stores a credential, after which a non-empty credential makes this failure
impossible. -/
theorem C4_missing_credential :
    (∀ (ε α : Type) (jsonParse : String → Except ε α) (d : Descriptor) (resp : String),
        (sendFull jsonParse none d resp).requestIssued = false ∧
        (sendFull jsonParse none d resp).outcome
          = .error (.configError keyMissingMsg)) ∧
    (∀ (ε α : Type) (jsonParse : String → Except ε α) (resp : String),
        (∀ s k soft, (sendFull jsonParse none (purgeP s k soft) resp).outcome
            = .error (.configError keyMissingMsg)) ∧
        (∀ u soft, (sendFull jsonParse none (purgeUrlP u soft) resp).outcome
            = .error (.configError keyMissingMsg)) ∧
        (∀ s, (sendFull jsonParse none (purgeAllP s) resp).outcome
            = .error (.configError keyMissingMsg)) ∧
        (∀ s v data, (sendFull jsonParse none (createBackendP s v data) resp).outcome
            = .error (.configError keyMissingMsg)) ∧
        (∀ s v n, (sendFull jsonParse none (deleteBackendP s v n) resp).outcome
            = .error (.configError keyMissingMsg)) ∧
        (∀ n, (sendFull jsonParse none (createServiceP n) resp).outcome
            = .error (.configError keyMissingMsg)) ∧
        (∀ s ps, (sendFull jsonParse none (updateServiceP s ps) resp).outcome
            = .error (.configError keyMissingMsg)) ∧
        (∀ s, (sendFull jsonParse none (createServiceVersionP s) resp).outcome
            = .error (.configError keyMissingMsg)) ∧
        (∀ s v data, (sendFull jsonParse none (updateServiceVersionP s v data) resp).outcome
            = .error (.configError keyMissingMsg)) ∧
        (∀ s v, (sendFull jsonParse none (validateServiceVersionP s v) resp).outcome
            = .error (.configError keyMissingMsg)) ∧
        (∀ s v, (sendFull jsonParse none (activateServiceVersionP s v) resp).outcome
            = .error (.configError keyMissingMsg)) ∧
        (∀ s v, (sendFull jsonParse none (deactivateServiceVersionP s v) resp).outcome
            = .error (.configError keyMissingMsg)) ∧
        (∀ s v, (sendFull jsonParse none (cloneServiceVersion s v) resp).outcome
            = .error (.configError keyMissingMsg)) ∧
        (∀ s v, (sendFull jsonParse none (lockServiceVersion s v) resp).outcome
            = .error (.configError keyMissingMsg)) ∧
        (∀ s, (sendFull jsonParse none (deleteServiceP s) resp).outcome
            = .error (.configError keyMissingMsg)) ∧
        (∀ s n, (sendFull jsonParse none (renameServiceP s n) resp).outcome
            = .error (.configError keyMissingMsg)) ∧
        ((sendFull jsonParse none ListServicesP resp).outcome
            = .error (.configError keyMissingMsg)) ∧
        (∀ s, (sendFull jsonParse none (getServiceP s) resp).outcome
            = .error (.configError keyMissingMsg)) ∧
        (∀ n, (sendFull jsonParse none (getServiceByNameP n) resp).outcome
            = .error (.configError keyMissingMsg)) ∧
        (∀ s, (sendFull jsonParse none (getServiceDetailsP s) resp).outcome
            = .error (.configError keyMissingMsg)) ∧
        (∀ s, (sendFull jsonParse none (getServiceDomainsP s) resp).outcome
            = .error (.configError keyMissingMsg)) ∧
        (∀ s v data, (sendFull jsonParse none (createDomainP s v data) resp).outcome
            = .error (.configError keyMissingMsg)) ∧
        (∀ s v, (sendFull jsonParse none (checkAllDomainsP s v) resp).outcome
            = .error (.configError keyMissingMsg)) ∧
        (∀ s v st, (sendFull jsonParse none (createRequestSettingP s v st) resp).outcome
            = .error (.configError keyMissingMsg)) ∧
        (∀ s v st, (sendFull jsonParse none (updateSettingsP s v st) resp).outcome
            = .error (.configError keyMissingMsg))) ∧
    (∀ k : String, k ≠ "" →
        ∀ (ε α : Type) (jsonParse : String → Except ε α) (d : Descriptor) (resp : String),
          (sendFull jsonParse (setApiKey k) d resp).outcome
            ≠ .error (.configError keyMissingMsg)) := by
  refine ⟨fun ε α jp d resp => ⟨rfl, rfl⟩,
    fun ε α jp resp =>
      ⟨fun _ _ _ => rfl, fun _ _ => rfl, fun _ => rfl, fun _ _ _ => rfl,
       fun _ _ _ => rfl, fun _ => rfl, fun _ _ => rfl, fun _ => rfl,
       fun _ _ _ => rfl, fun _ _ => rfl, fun _ _ => rfl, fun _ _ => rfl,
       fun _ _ => rfl, fun _ _ => rfl, fun _ => rfl, fun _ _ => rfl, rfl,
       fun _ => rfl, fun _ => rfl, fun _ => rfl, fun _ => rfl,
       fun _ _ _ => rfl, fun _ _ => rfl, fun _ _ _ => rfl, fun _ _ _ => rfl⟩,
    ?_⟩
  intro k hk ε α jp d resp h
  have hsend := sendP_issued k hk d
  simp only [sendFull, setApiKey, hsend] at h
  by_cases hr : resp = ""
  · simp [handleResponse, hr] at h
  · simp only [handleResponse, hr, if_neg hr] at h
    cases hjp : jp resp with
    | ok v => rw [hjp] at h; simp [Except.mapError] at h
    | error e => rw [hjp] at h; simp [Except.mapError] at h

/-- Witness for C4: after setting a non-empty key the missing-credential
failure no longer occurs, here on the list-services request. -/
theorem C4_missing_credential_witness :
    (sendFull (fun _ => (Except.ok 0 : Except String Nat)) (setApiKey "w4")
        ListServicesP "x").outcome ≠ .error (.configError keyMissingMsg) :=
  C4_missing_credential.2.2 "w4" (by decide) String Nat
    (fun _ => (Except.ok 0 : Except String Nat)) ListServicesP "x"

/-- C10: the credential presence check tests the stored key for falsiness,
not for having been set: after setApiKey "" the whole execution of sendP — and
of every helper, since each dispatches through sendP — is the very execution
of the never-set state, failing with the missing-credential configuration
error and issuing nothing; while after setApiKey k with non-empty k, sendP
issues the request and the exact string k is sent as the Fastly-Key header
value whenever the caller does not override that header. -/
theorem C10_falsy_key_check :
    (∀ (ε α : Type) (jsonParse : String → Except ε α) (d : Descriptor) (resp : String),
        sendFull jsonParse (setApiKey "") d resp = sendFull jsonParse none d resp) ∧
    (∀ (ε α : Type) (jsonParse : String → Except ε α) (d : Descriptor) (resp : String),
        (sendFull jsonParse (setApiKey "") d resp).requestIssued = false ∧
        (sendFull jsonParse (setApiKey "") d resp).outcome
          = .error (.configError keyMissingMsg)) ∧
    (∀ (ε α : Type) (jsonParse : String → Except ε α) (resp : String),
        (∀ s k soft, (sendFull jsonParse (setApiKey "") (purgeP s k soft) resp).outcome
            = .error (.configError keyMissingMsg)) ∧
        (∀ u soft, (sendFull jsonParse (setApiKey "") (purgeUrlP u soft) resp).outcome
            = .error (.configError keyMissingMsg)) ∧
        (∀ s, (sendFull jsonParse (setApiKey "") (purgeAllP s) resp).outcome
            = .error (.configError keyMissingMsg)) ∧
        (∀ s v data,
            (sendFull jsonParse (setApiKey "") (createBackendP s v data) resp).outcome
            = .error (.configError keyMissingMsg)) ∧
        (∀ s v n,
            (sendFull jsonParse (setApiKey "") (deleteBackendP s v n) resp).outcome
            = .error (.configError keyMissingMsg)) ∧
        (∀ n, (sendFull jsonParse (setApiKey "") (createServiceP n) resp).outcome
            = .error (.configError keyMissingMsg)) ∧
        (∀ s ps, (sendFull jsonParse (setApiKey "") (updateServiceP s ps) resp).outcome
            = .error (.configError keyMissingMsg)) ∧
        (∀ s, (sendFull jsonParse (setApiKey "") (createServiceVersionP s) resp).outcome
            = .error (.configError keyMissingMsg)) ∧
        (∀ s v data,
            (sendFull jsonParse (setApiKey "") (updateServiceVersionP s v data) resp).outcome
            = .error (.configError keyMissingMsg)) ∧
        (∀ s v,
            (sendFull jsonParse (setApiKey "") (validateServiceVersionP s v) resp).outcome
            = .error (.configError keyMissingMsg)) ∧
        (∀ s v,
            (sendFull jsonParse (setApiKey "") (activateServiceVersionP s v) resp).outcome
            = .error (.configError keyMissingMsg)) ∧
        (∀ s v,
            (sendFull jsonParse (setApiKey "") (deactivateServiceVersionP s v) resp).outcome
            = .error (.configError keyMissingMsg)) ∧
        (∀ s v, (sendFull jsonParse (setApiKey "") (cloneServiceVersion s v) resp).outcome
            = .error (.configError keyMissingMsg)) ∧
        (∀ s v, (sendFull jsonParse (setApiKey "") (lockServiceVersion s v) resp).outcome
            = .error (.configError keyMissingMsg)) ∧
        (∀ s, (sendFull jsonParse (setApiKey "") (deleteServiceP s) resp).outcome
            = .error (.configError keyMissingMsg)) ∧
        (∀ s n, (sendFull jsonParse (setApiKey "") (renameServiceP s n) resp).outcome
            = .error (.configError keyMissingMsg)) ∧
        ((sendFull jsonParse (setApiKey "") ListServicesP resp).outcome
            = .error (.configError keyMissingMsg)) ∧
        (∀ s, (sendFull jsonParse (setApiKey "") (getServiceP s) resp).outcome
            = .error (.configError keyMissingMsg)) ∧
        (∀ n, (sendFull jsonParse (setApiKey "") (getServiceByNameP n) resp).outcome
            = .error (.configError keyMissingMsg)) ∧
        (∀ s, (sendFull jsonParse (setApiKey "") (getServiceDetailsP s) resp).outcome
            = .error (.configError keyMissingMsg)) ∧
        (∀ s, (sendFull jsonParse (setApiKey "") (getServiceDomainsP s) resp).outcome
            = .error (.configError keyMissingMsg)) ∧
        (∀ s v data,
            (sendFull jsonParse (setApiKey "") (createDomainP s v data) resp).outcome
            = .error (.configError keyMissingMsg)) ∧
        (∀ s v, (sendFull jsonParse (setApiKey "") (checkAllDomainsP s v) resp).outcome
            = .error (.configError keyMissingMsg)) ∧
        (∀ s v st,
            (sendFull jsonParse (setApiKey "") (createRequestSettingP s v st) resp).outcome
            = .error (.configError keyMissingMsg)) ∧
        (∀ s v st,
            (sendFull jsonParse (setApiKey "") (updateSettingsP s v st) resp).outcome
            = .error (.configError keyMissingMsg))) ∧
    (∀ k : String, k ≠ "" → ∀ d : Descriptor,
        d.headers.lookup "Fastly-Key" = none →
          sendP (setApiKey k) d = .issued (issuedOf k d) ∧
          (issuedOf k d).headers.lookup "Fastly-Key" = some k) := by
  refine ⟨fun ε α jp d resp => rfl,
    fun ε α jp d resp => ⟨rfl, rfl⟩,
    fun ε α jp resp =>
      ⟨fun _ _ _ => rfl, fun _ _ => rfl, fun _ => rfl, fun _ _ _ => rfl,
       fun _ _ _ => rfl, fun _ => rfl, fun _ _ => rfl, fun _ => rfl,
       fun _ _ _ => rfl, fun _ _ => rfl, fun _ _ => rfl, fun _ _ => rfl,
       fun _ _ => rfl, fun _ _ => rfl, fun _ => rfl, fun _ _ => rfl, rfl,
       fun _ => rfl, fun _ => rfl, fun _ => rfl, fun _ => rfl,
       fun _ _ _ => rfl, fun _ _ => rfl, fun _ _ _ => rfl, fun _ _ _ => rfl⟩,
    ?_⟩
  intro k hk d hlook
  refine ⟨sendP_issued k hk d, ?_⟩
  simp [issuedOf, lookup_rmerge, hlook, Option.orElse, defaultHeaders,
    List.lookup_cons]

/-- Witness for C10: a non-empty key set through the setter is sent verbatim
as the Fastly-Key header on the purge-all request. -/
theorem C10_falsy_key_check_witness :
    (issuedOf "w10" (purgeAllP "s")).headers.lookup "Fastly-Key" = some "w10" :=
  (C10_falsy_key_check.2.2.2 "w10" (by decide) (purgeAllP "s") rfl).2

/-- Projection of the target url of an issued dispatch. -/
def issuedUrl : Dispatch → Option String
  | .issued o => some o.url
  | .configError _ => none

/-- Counterexample to C5: purgeUrlP of "http://example.com/x" does not issue
the request to exactly that target: sendP always joins base url and endpoint
with a slash, so with the empty default endpoint a "/" is appended and the
issued url is "http://example.com/x/". -/
theorem C5_counterexample :
    issuedUrl (sendP (some "k") (purgeUrlP "http://example.com/x" true))
      = some "http://example.com/x/" ∧
    issuedUrl (sendP (some "k") (purgeUrlP "http://example.com/x" true))
      ≠ some "http://example.com/x" := by
  exact ⟨by decide, by decide⟩

/-- C5 amended: purgeUrlP "http://example.com/x" issues exactly one request,
with method PURGE, whose target is the given url with the single slash
separator appended — "http://example.com/x/" — and nothing else; with
soft = true it carries the header Fastly-Soft-Purge: 1, and with soft = false
the same method and url are used without that header. -/
theorem C5_purgeUrl_amended (key : String) (hk : key ≠ "") :
    sendP (some key) (purgeUrlP "http://example.com/x" true)
      = .issued (issuedOf key (purgeUrlP "http://example.com/x" true)) ∧
    (issuedOf key (purgeUrlP "http://example.com/x" true)).method = "PURGE" ∧
    (issuedOf key (purgeUrlP "http://example.com/x" true)).url
      = "http://example.com/x/" ∧
    (issuedOf key (purgeUrlP "http://example.com/x" true)).headers.lookup
        "Fastly-Soft-Purge" = some "1" ∧
    sendP (some key) (purgeUrlP "http://example.com/x" false)
      = .issued (issuedOf key (purgeUrlP "http://example.com/x" false)) ∧
    (issuedOf key (purgeUrlP "http://example.com/x" false)).method = "PURGE" ∧
    (issuedOf key (purgeUrlP "http://example.com/x" false)).url
      = "http://example.com/x/" ∧
    (issuedOf key (purgeUrlP "http://example.com/x" false)).headers.lookup
        "Fastly-Soft-Purge" = none := by
  refine ⟨sendP_issued key hk _, rfl, rfl, ?_,
    sendP_issued key hk _, rfl, rfl, ?_⟩
  · simp [issuedOf, purgeUrlP, lookup_rmerge, defaultHeaders,
      List.lookup_cons, Option.orElse]
  · simp [issuedOf, purgeUrlP, lookup_rmerge, defaultHeaders,
      List.lookup_cons, Option.orElse]

/-- Witness for C5 amended: the soft purge carries the soft-purge header. -/
theorem C5_purgeUrl_amended_witness :
    (issuedOf "k5" (purgeUrlP "http://example.com/x" true)).headers.lookup
        "Fastly-Soft-Purge" = some "1" :=
  (C5_purgeUrl_amended "k5" (by decide)).2.2.2.1

/-- C7: with a present credential and a non-empty response body, sendP
resolves with the JSON-decoded value when the parser succeeds and rejects
with the parser's own error — the payload propagated unchanged, wrapped only
by the parseError constructor of the model's error sum — when it fails; with
an empty body it rejects with the application error instead. -/
theorem C7_parse_semantics (key : String) (hk : key ≠ "") (ε α : Type)
    (jsonParse : String → Except ε α) (d : Descriptor) (resp : String) :
    (resp ≠ "" → (sendFull jsonParse (some key) d resp).outcome
        = (jsonParse resp).mapError SendError.parseError) ∧
    (resp ≠ "" → ∀ v, jsonParse resp = .ok v →
        (sendFull jsonParse (some key) d resp).outcome = .ok v) ∧
    (resp ≠ "" → ∀ e, jsonParse resp = .error e →
        (sendFull jsonParse (some key) d resp).outcome
          = .error (.parseError e)) ∧
    (resp = "" → (sendFull jsonParse (some key) d resp).outcome
        = .error (.appError ("request failed with sanitized options: "
            ++ stringifyOptions (sanitizedOf (issuedOf key d))))) := by
  have hsend := sendP_issued key hk d
  refine ⟨fun hr => ?_, fun hr v hv => ?_, fun hr e he => ?_, fun hr => ?_⟩
  · simp [sendFull, hsend, handleResponse, hr]
  · simp [sendFull, hsend, handleResponse, hr, hv, Except.mapError]
  · simp [sendFull, hsend, handleResponse, hr, he, Except.mapError]
  · simp [sendFull, hsend, handleResponse, hr]

/-- Witness for C7: a response body a concrete parser accepts resolves to the
parsed value. -/
theorem C7_parse_semantics_witness :
    (sendFull (fun s => if s = "7" then Except.ok 7 else Except.error "bad")
        (some "k7") ({} : Descriptor) "7").outcome = Except.ok 7 :=
  (C7_parse_semantics "k7" (by decide) String Nat
    (fun s => if s = "7" then Except.ok 7 else Except.error "bad")
    ({} : Descriptor) "7").2.1 (by decide) 7 rfl

/-- Counterexample to C1: with credential "secret" and the caller-supplied
header set echoing that value under another name, the serialized message of
the empty-response failure path does contain the raw credential value, so
the property quantified over every caller-supplied header set fails. -/
theorem C1_counterexample :
    strContains
      ((appErrMsg ((sendFull (fun _ => (Except.error "e" : Except String Nat))
          (some "secret")
          { endpoint := "service", headers := [("X-Echo", "secret")] }
          "").outcome)).getD "")
      "secret" = true := by
  decide

/-- C1 amended: on the empty-response failure path the options embedded in
the error message are the issued options with the Fastly-Key header entry
deleted, so that header no longer resolves and every remaining header value
is either the default Accept value or one the caller supplied; hence the raw
credential can reach the serialized message only through components the
caller themselves provided (headers, url, method, params), as in the
counterexample. -/
theorem C1_redaction_amended (key : String) (hk : key ≠ "") (ε α : Type)
    (jsonParse : String → Except ε α) (d : Descriptor) :
    (sendFull jsonParse (some key) d "").finalOptions
        = some (sanitizedOf (issuedOf key d)) ∧
    (sanitizedOf (issuedOf key d)).headers.lookup "Fastly-Key" = none ∧
    (∀ p ∈ (sanitizedOf (issuedOf key d)).headers,
        p.2 = "application/json" ∨ p ∈ d.headers) ∧
    (sendFull jsonParse (some key) d "").outcome
        = .error (.appError ("request failed with sanitized options: "
            ++ stringifyOptions (sanitizedOf (issuedOf key d)))) := by
  have hsend := sendP_issued key hk d
  refine ⟨by simp [sendFull, hsend, handleResponse], ?_, ?_,
    by simp [sendFull, hsend, handleResponse]⟩
  · simpa [sanitizedOf] using lookup_eraseKey (issuedOf key d).headers "Fastly-Key"
  · intro p hp
    have h1 := mem_eraseKey (show p ∈ eraseKey (issuedOf key d).headers "Fastly-Key"
      from hp)
    have h2 : p ∈ rmerge (defaultHeaders key) d.headers := h1.1
    rw [rmerge] at h2
    rcases List.mem_append.mp h2 with hmap | hfil
    · rcases List.mem_map.mp hmap with ⟨q, hq, hpq⟩
      simp only [defaultHeaders, List.mem_cons, List.mem_singleton,
        List.not_mem_nil, or_false] at hq
      rcases hq with hq | hq
      · exfalso
        apply h1.2
        rw [← hpq, hq]
      · cases hacc : d.headers.lookup "Accept" with
        | none =>
            left
            rw [← hpq, hq]
            simp [hacc]
        | some w =>
            right
            have hmem := mem_of_lookup hacc
            rw [← hpq, hq]
            simpa [hacc] using hmem
    · exact Or.inr (List.mem_filter.mp hfil).1

/-- Witness for C1 amended: the sanitized options of a default request under
a concrete key hold no Fastly-Key header. -/
theorem C1_redaction_amended_witness :
    (sanitizedOf (issuedOf "k1" ({} : Descriptor))).headers.lookup "Fastly-Key"
      = none :=
  (C1_redaction_amended "k1" (by decide) String Nat
    (fun _ => Except.error "e") ({} : Descriptor)).2.1

/-- Counterexample to C9: on the empty-response error path the options object
used for the call is mutated after the request was issued — optionsLog is an
alias of options, so the delete of the Fastly-Key header rewrites the issued
options — hence the final state of the options differs from the issued
state. -/
theorem C9_counterexample :
    (sendFull (fun _ => (Except.error "e" : Except String Nat)) (some "k")
        { endpoint := "service" } "").finalOptions
      ≠ (sendFull (fun _ => (Except.error "e" : Except String Nat)) (some "k")
        { endpoint := "service" } "").issuedOptions := by
  decide

/-- C9 amended: the caller-supplied header map and parameter bag are left
unchanged on every execution path, and on non-empty responses the request
options are not modified after the request is issued; but on the
empty-response error path the options object is mutated after the call — its
merged header map loses the Fastly-Key entry — because the sanitized error
message is built by deleting that key through the optionsLog alias. -/
theorem C9_frame_amended (key : String) (hk : key ≠ "") (ε α : Type)
    (jsonParse : String → Except ε α) (d : Descriptor) (resp : String) :
    (sendFull jsonParse (some key) d resp).finalCallerHeaders = d.headers ∧
    (sendFull jsonParse (some key) d resp).finalCallerParams = d.params ∧
    (sendFull jsonParse (some key) d resp).issuedOptions
      = some (issuedOf key d) ∧
    (resp ≠ "" → (sendFull jsonParse (some key) d resp).finalOptions
        = some (issuedOf key d)) ∧
    (resp = "" → (sendFull jsonParse (some key) d resp).finalOptions
        = some (sanitizedOf (issuedOf key d))) := by
  have hsend := sendP_issued key hk d
  refine ⟨by simp [sendFull, hsend], by simp [sendFull, hsend],
    by simp [sendFull, hsend], fun hr => ?_, fun hr => ?_⟩
  · simp [sendFull, hsend, handleResponse, hr]
  · simp [sendFull, hsend, handleResponse, hr]

/-- Witness for C9 amended: on a non-empty response nothing is mutated after
the request is issued. -/
theorem C9_frame_amended_witness :
    (sendFull (fun _ => (Except.ok 0 : Except String Nat)) (some "k9")
        (getServiceP "s") "body").finalOptions
      = some (issuedOf "k9" (getServiceP "s")) :=
  (C9_frame_amended "k9" (by decide) String Nat (fun _ => Except.ok 0)
    (getServiceP "s") "body").2.2.2.1 (by decide)
